import Mathlib

/-! Shallow embedding of `src/main.py`, a FastAPI cricket-data aggregation proxy.

Modelling conventions:
* Python/JSON values are an inductive `Json` (null, bool, int, string, array,
  object as an association list preserving insertion order).
* Python exceptions and FastAPI `HTTPException` are modelled with
  `Except PyErr`; an endpoint's `try/except` wrapper maps unclassified
  exceptions to a generic 500 with the message truncated to 200 characters,
  exactly as the code does.
* `requests.get` is abstracted as a transport oracle that either returns an
  HTTP response (status code, raw text, parsed JSON body) or raises a
  network-level exception carrying a message.  Responses carry their JSON
  body directly, i.e. we model upstream bodies that parse as JSON.
* Functions that may issue network calls also return the list of calls they
  issued, so that "no network request was made" is expressible.
-/

inductive Json where
  | null : Json
  | bool : Bool → Json
  | num : Int → Json
  | str : String → Json
  | arr : List Json → Json
  | obj : List (String × Json) → Json
deriving Repr

/-- Association lookup in a JSON object (`none` when the receiver is not an
object or the key is absent). -/
def Json.lookup (j : Json) (k : String) : Option Json :=
  match j with
  | .obj fs => fs.lookup k
  | _ => none

/-- Python truthiness of a JSON value (`bool(x)`). -/
def truthy : Json → Bool
  | .null => false
  | .bool b => b
  | .num n => n != 0
  | .str s => s != ""
  | .arr xs => !xs.isEmpty
  | .obj fs => !fs.isEmpty

/-- FastAPI `HTTPException(status_code, detail)`. -/
structure HTTPException where
  status : Nat
  detail : String
deriving Repr, DecidableEq

/-- A Python exception: either an already-classified `HTTPException` or an
unclassified exception carrying its `str(e)` message. -/
inductive PyErr where
  | http : HTTPException → PyErr
  | exn : String → PyErr
deriving Repr, DecidableEq

/-- Python `d.get(k)` on a dict: `None` when the key is absent;
`AttributeError` when the receiver is not a dict. -/
def pyGet (d : Json) (k : String) : Except PyErr Json :=
  match d with
  | .obj fs => .ok ((fs.lookup k).getD .null)
  | _ => .error (.exn "AttributeError: object has no attribute get")

/-- Python `d.get(k, default)` on a dict. -/
def pyGetD (d : Json) (k : String) (dflt : Json) : Except PyErr Json :=
  match d with
  | .obj fs => .ok ((fs.lookup k).getD dflt)
  | _ => .error (.exn "AttributeError: object has no attribute get")

/-- Python `s.upper()` on a string, character by character (ASCII-faithful,
and kernel-computable, unlike `String.toUpper`). -/
def pyStrUpper (s : String) : String :=
  String.mk (s.data.map Char.toUpper)

/-- Python `x.upper()`: defined on strings only. -/
def pyUpper (j : Json) : Except PyErr Json :=
  match j with
  | .str s => .ok (.str (pyStrUpper s))
  | _ => .error (.exn "AttributeError: object has no attribute upper")

/-- Python iteration `for x in j`: lists yield elements, dicts yield their
keys, strings yield their characters, everything else raises `TypeError`. -/
def pyIter (j : Json) : Except PyErr (List Json) :=
  match j with
  | .arr xs => .ok xs
  | .obj fs => .ok (fs.map (fun p => .str p.1))
  | .str s => .ok (s.data.map (fun c => .str (String.mk [c])))
  | _ => .error (.exn "TypeError: object is not iterable")

/-- Python `xs[0]`. -/
def pyIndex0 (j : Json) : Except PyErr Json :=
  match j with
  | .arr (x :: _) => .ok x
  | .arr [] => .error (.exn "IndexError: list index out of range")
  | .str s =>
      match s.data with
      | c :: _ => .ok (.str (String.mk [c]))
      | [] => .error (.exn "IndexError: string index out of range")
  | _ => .error (.exn "TypeError: object is not subscriptable")

/-- Sequential exception-propagating map, the semantics of a Python list
comprehension `[f x for x in xs]`. -/
def mapEx (f : Json → Except PyErr Json) : List Json → Except PyErr (List Json)
  | [] => .ok []
  | x :: xs =>
      match f x with
      | .error e => .error e
      | .ok y =>
          match mapEx f xs with
          | .error e => .error e
          | .ok ys => .ok (y :: ys)

/-- Python `s.rstrip('/')`. -/
def rstripSlash (s : String) : String :=
  String.mk ((s.data.reverse.dropWhile (fun c => c == '/')).reverse)

/-- Python `s.lstrip('/')`. -/
def lstripSlash (s : String) : String :=
  String.mk (s.data.dropWhile (fun c => c == '/'))

/-- An upstream HTTP response: status code, raw text, and parsed JSON body. -/
structure HttpResp where
  status : Nat
  text : String
  body : Json
deriving Repr

/-- One outbound network request as issued by `requests.get`. -/
structure Call where
  url : String
  headers : List (String × String)
  params : List (String × String)
deriving Repr, DecidableEq

/-- The network: a call either yields a response or raises an exception
carrying a message (timeout, DNS failure, connection reset, ...). -/
def Transport : Type := Call → Except String HttpResp

/-- Environment-sourced configuration (module-level constants of `main.py`).
`API_PROVIDER` is stored already lower-cased, as the module does at load. -/
structure Config where
  API_PROVIDER : String
  CRICKET_API_KEY : Option String
  SPORTMONKS_BASE : String
  RAPIDAPI_HOST : Option String
  RAPIDAPI_KEY : Option String
deriving Repr, DecidableEq

/-- Python falsiness of an optional environment string (`not VAR`): unset or
empty. -/
def falsyOpt : Option String → Bool
  | none => true
  | some s => s == ""

/-- `sportmonks_get(path, params)`: 501 when the key is falsy (no call
issued); otherwise one GET to `base/path` with `api_token` merged into the
query parameters; non-200 raises `HTTPException(status, text)`; otherwise the
parsed body is returned.  The second component lists the calls issued. -/
def sportmonks_get (cfg : Config) (t : Transport) (path : String)
    (params : List (String × String)) : Except PyErr Json × List Call :=
  if falsyOpt cfg.CRICKET_API_KEY then
    (.error (.http ⟨501, "CRICKET_API_KEY not set for SportMonks"⟩), [])
  else
    let url := rstripSlash cfg.SPORTMONKS_BASE ++ "/" ++ lstripSlash path
    let ps := params ++ [("api_token", cfg.CRICKET_API_KEY.getD "")]
    let call : Call := ⟨url, [], ps⟩
    match t call with
    | .error msg => (.error (.exn msg), [call])
    | .ok r =>
        if r.status != 200 then (.error (.http ⟨r.status, r.text⟩), [call])
        else (.ok r.body, [call])

/-- Default base URL of `rapidapi_get`. -/
def RAPIDAPI_BASE : String := "https://cricbuzz-cricket.p.rapidapi.com"

/-- `rapidapi_get(path, params, base)`: 501 when key or host is falsy (no
call issued); otherwise one GET with the RapidAPI header pair; non-200 raises
`HTTPException(status, text)`. -/
def rapidapi_get (cfg : Config) (t : Transport) (path : String)
    (params : Option (List (String × String))) (base : String) :
    Except PyErr Json × List Call :=
  if falsyOpt cfg.RAPIDAPI_KEY || falsyOpt cfg.RAPIDAPI_HOST then
    (.error (.http ⟨501, "RAPIDAPI_KEY or RAPIDAPI_HOST not configured"⟩), [])
  else
    let url := rstripSlash base ++ "/" ++ lstripSlash path
    let headers := [("X-RapidAPI-Key", cfg.RAPIDAPI_KEY.getD ""),
                    ("X-RapidAPI-Host", cfg.RAPIDAPI_HOST.getD "")]
    let call : Call := ⟨url, headers, params.getD []⟩
    match t call with
    | .error msg => (.error (.exn msg), [call])
    | .ok r =>
        if r.status != 200 then (.error (.http ⟨r.status, r.text⟩), [call])
        else (.ok r.body, [call])

/-- The validated `type` query parameter of `/api/matches`
(`pattern="^(live|upcoming|completed)$"`). -/
inductive MatchType where
  | live | upcoming | completed
deriving Repr, DecidableEq

/-- The Python string value of the `type` parameter. -/
def MatchType.toStr : MatchType → String
  | .live => "live"
  | .upcoming => "upcoming"
  | .completed => "completed"

/-- The SportMonks endpoint table of `get_matches` (lines 84-88). -/
def sportmonksEndpoint : MatchType → String
  | .live => "livescores"
  | .upcoming => "fixtures"
  | .completed => "fixtures/finished"

/-- The RapidAPI path table of `get_matches` (lines 114-118). -/
def rapidapiPath : MatchType → String
  | .live => "matches/v1/live"
  | .upcoming => "matches/v1/upcoming"
  | .completed => "matches/v1/recent"

/-- The SportMonks `to_card` normalizer (lines 93-107).  Builds the card
dict; any attribute error (e.g. `.upper()` on a non-string status) raises. -/
def to_card (ty : MatchType) (m : Json) : Except PyErr Json := do
  let lt0 ← pyGet m "localteam"
  let lt := if truthy lt0 then lt0 else .obj []
  let vt0 ← pyGet m "visitorteam"
  let vt := if truthy vt0 then vt0 else .obj []
  let venue0 ← pyGet m "venue"
  let venue := if truthy venue0 then venue0 else .obj []
  let idv ← pyGet m "id"
  let st0 ← pyGet m "status"
  let st ← if truthy st0 then pyUpper st0 else pure (.str (pyStrUpper ty.toStr))
  let note ← pyGet m "note"
  let runs ← pyGet m "runs"
  let leagueId ← pyGet m "season_id"
  let ltId ← pyGet lt "id"
  let ltName ← pyGet lt "name"
  let ltCode ← pyGet lt "code"
  let vtId ← pyGet vt "id"
  let vtName ← pyGet vt "name"
  let vtCode ← pyGet vt "code"
  let vName ← pyGet venue "name"
  let vCity ← pyGet venue "city"
  let startingAt ← pyGet m "starting_at"
  pure (.obj
    [("id", idv), ("status", st), ("note", note), ("runs", runs),
     ("league_id", leagueId),
     ("localteam", .obj [("id", ltId), ("name", ltName), ("code", ltCode)]),
     ("visitorteam", .obj [("id", vtId), ("name", vtName), ("code", vtCode)]),
     ("venue", .obj [("name", vName), ("city", vCity)]),
     ("starting_at", startingAt)])

/-- The RapidAPI card normalizer, the loop body of lines 123-131. -/
def rapidapi_card (ty : MatchType) (m : Json) : Except PyErr Json := do
  let mid0 ← pyGet m "matchId"
  let mid ← if truthy mid0 then pure mid0 else pyGet m "id"
  let ms ← pyGet m "matchState"
  let stRaw ← if truthy ms then pure ms else pyGetD m "status" (.str ty.toStr)
  let st ← pyUpper stRaw
  let note ← pyGet m "seriesName"
  let t1a ← pyGet m "team1"
  let t1 := if truthy t1a then t1a else .obj []
  let ltName ← pyGet t1 "teamName"
  let t1b ← pyGet m "team1"
  let t1' := if truthy t1b then t1b else .obj []
  let ltCode ← pyGet t1' "teamSName"
  let t2a ← pyGet m "team2"
  let t2 := if truthy t2a then t2a else .obj []
  let vtName ← pyGet t2 "teamName"
  let t2b ← pyGet m "team2"
  let t2' := if truthy t2b then t2b else .obj []
  let vtCode ← pyGet t2' "teamSName"
  let vi1 ← pyGetD m "venueInfo" (.obj [])
  let vName ← pyGet vi1 "ground"
  let vi2 ← pyGetD m "venueInfo" (.obj [])
  let vCity ← pyGet vi2 "city"
  let startingAt ← pyGet m "startTime"
  pure (.obj
    [("id", mid), ("status", st), ("note", note),
     ("localteam", .obj [("name", ltName), ("code", ltCode)]),
     ("visitorteam", .obj [("name", vtName), ("code", vtCode)]),
     ("venue", .obj [("name", vName), ("city", vCity)]),
     ("starting_at", startingAt)])

/-- The body of `get_matches` inside the `try` block (lines 82-132). -/
def get_matches_inner (cfg : Config) (t : Transport) (ty : MatchType) :
    Except PyErr Json × List Call :=
  if cfg.API_PROVIDER == "sportmonks" then
    let fetched := sportmonks_get cfg t (sportmonksEndpoint ty)
      [("include", "localteam,visitorteam,venue,season")]
    (do
      let data ← fetched.1
      let rawMatches ← pyGetD data "data" (.arr [])
      let items ← pyIter rawMatches
      let cards ← mapEx (to_card ty) items
      pure (.obj [("type", .str ty.toStr), ("matches", .arr cards)]),
     fetched.2)
  else
    let fetched := rapidapi_get cfg t (rapidapiPath ty) none RAPIDAPI_BASE
    (do
      let data ← fetched.1
      let items0 ← pyGetD data "matches" data
      let items ← pyIter items0
      let cards ← mapEx (rapidapi_card ty) items
      pure (.obj [("type", .str ty.toStr), ("matches", .arr cards)]),
     fetched.2)

/-- The endpoint-boundary `except` clauses shared by `get_matches` and
`get_match_details`: classified `HTTPException`s re-raise unchanged; any
other exception becomes a generic 500 with `str(e)[:200]`. -/
def wrapErr {α : Type} : Except PyErr α → Except HTTPException α
  | .ok a => .ok a
  | .error (.http e) => .error e
  | .error (.exn msg) => .error ⟨500, msg.take 200⟩

/-- `GET /api/matches` (lines 78-136). -/
def get_matches (cfg : Config) (t : Transport) (ty : MatchType) :
    Except HTTPException Json × List Call :=
  let r := get_matches_inner cfg t ty
  (wrapErr r.1, r.2)

/-- The body of `get_match_details` inside the `try` block (lines 142-154). -/
def get_match_details_inner (cfg : Config) (t : Transport) (matchId : String) :
    Except PyErr Json × List Call :=
  if cfg.API_PROVIDER == "sportmonks" then
    sportmonks_get cfg t ("fixtures/" ++ matchId)
      [("include", "localteam,visitorteam,venue,runs,batting,bowling,manofmatch,manofseries,lineup,balls,scoreboards")]
  else
    rapidapi_get cfg t ("mcenter/v1/" ++ matchId) none RAPIDAPI_BASE

/-- `GET /api/match/{match_id}` (lines 139-158). -/
def get_match_details (cfg : Config) (t : Transport) (matchId : String) :
    Except HTTPException Json × List Call :=
  let r := get_match_details_inner cfg t matchId
  (wrapErr r.1, r.2)

/-- The rankings endpoints call `requests.get(url, timeout=15)` directly, so
their transport is keyed by URL alone. -/
def UrlTransport : Type := String → Except String HttpResp

/-- The ICC teams-rankings URL for a format (line 167). -/
def rankingsTeamsUrl (format : String) : String :=
  "https://www.icc-cricket.com/iccrankings/api/" ++ format ++ "/men/teams"

/-- The ICC player-category rankings URL (line 175). -/
def rankingsCatUrl (format cat : String) : String :=
  "https://www.icc-cricket.com/iccrankings/api/" ++ format ++ "/men/" ++ cat

/-- One player-category sub-request of `get_rankings`: the slot keeps its
initial `[]` unless the sub-request returns status 200 (lines 174-177). -/
def rankingsCatStep (format : String) (t : UrlTransport) (cat : String) :
    Except String Json :=
  match t (rankingsCatUrl format cat) with
  | .error msg => .error msg
  | .ok pr => .ok (if pr.status == 200 then pr.body else .arr [])

/-- The body of `get_rankings` inside the `try` block (lines 165-178).  The
`players` dict literal has exactly the keys batting, bowling, allrounder, in
that insertion order. -/
def get_rankings_inner (format : String) (t : UrlTransport) :
    Except String Json :=
  match t (rankingsTeamsUrl format) with
  | .error msg => .error msg
  | .ok r =>
      let teams := if r.status == 200 then r.body else .arr []
      match rankingsCatStep format t "batting" with
      | .error msg => .error msg
      | .ok batting =>
          match rankingsCatStep format t "bowling" with
          | .error msg => .error msg
          | .ok bowling =>
              match rankingsCatStep format t "allrounder" with
              | .error msg => .error msg
              | .ok allrounder =>
                  .ok (.obj
                    [("format", .str format), ("teams", teams),
                     ("players", .obj
                       [("batting", batting), ("bowling", bowling),
                        ("allrounder", allrounder)])])

/-- `GET /api/rankings` (lines 161-180): any exception inside the `try`
becomes `HTTPException(500, str(e)[:200])`. -/
def get_rankings (format : String) (t : UrlTransport) :
    Except HTTPException Json :=
  match get_rankings_inner format t with
  | .ok j => .ok j
  | .error msg => .error ⟨500, msg.take 200⟩

/-- A parsed RSS feed as produced by `feedparser.parse`: the `feed` metadata
dict and the `entries` list. -/
structure Feed where
  meta : Json
  entries : List Json
deriving Repr

/-- The NewsItem normalizer, the loop body of lines 192-199. -/
def news_item (f : Feed) (e : Json) : Except PyErr Json := do
  let title ← pyGet e "title"
  let link ← pyGet e "link"
  let summary ← pyGetD e "summary" (.str "")
  let updated ← pyGet e "updated"
  let published ← pyGetD e "published" updated
  let source ← pyGetD f.meta "title" (.str "RSS")
  let mt ← pyGet e "media_thumbnail"
  let mc ← pyGet e "media_content"
  let media := if truthy mt then mt
    else if truthy mc then mc else .arr [.obj []]
  let first ← pyIndex0 media
  let image ← pyGet first "url"
  pure (.obj
    [("title", title), ("link", link), ("summary", summary),
     ("published", published), ("source", source), ("image", image)])

/-- Runs a normalizer over entries sequentially, keeping the successfully
normalized prefix: an exception aborts the current feed's loop (the `except`
at line 200 swallows it), but items appended earlier survive. -/
def collectUntilErr (f : Json → Except PyErr Json) : List Json → List Json
  | [] => []
  | e :: es =>
      match f e with
      | .error _ => []
      | .ok j => j :: collectUntilErr f es

/-- What one source contributes to `items`: nothing when its parse raised,
otherwise the normalized prefix of its first 20 entries. -/
def feedContribution : Except String Feed → List Json
  | .error _ => []
  | .ok f => collectUntilErr (news_item f) (f.entries.take 20)

/-- `GET /api/news` (lines 183-203), over the parse outcomes of the
configured sources, in source order.  The loop accumulates `items` across
feeds and the response truncates to the first 50. -/
def get_news (feeds : List (Except String Feed)) : Json :=
  let items := feeds.foldl (fun acc f => acc ++ feedContribution f) []
  .obj [("items", .arr (items.take 50))]

/-- `GET /api/tweets` (lines 219-242): with a falsy token, the empty-list
note response is returned and no call is issued; otherwise one authenticated
search call is made, non-200 raises, and the results are mapped to tweets. -/
def get_tweets (token : Option String) (query : String) (t : Transport) :
    Except PyErr Json × List Call :=
  if falsyOpt token then
    (.ok (.obj [("tweets", .arr []),
                ("note", .str "X_BEARER_TOKEN not configured")]), [])
  else
    let headers := [("Authorization", "Bearer " ++ token.getD "")]
    let ps := [("query", query), ("tweet.fields", "created_at,public_metrics"),
               ("max_results", "10")]
    let call : Call := ⟨"https://api.twitter.com/2/tweets/search/recent", headers, ps⟩
    match t call with
    | .error msg => (.error (.exn msg), [call])
    | .ok r =>
        if r.status != 200 then (.error (.http ⟨r.status, r.text⟩), [call])
        else
          ((do
            let rows ← pyGetD r.body "data" (.arr [])
            let items ← pyIter rows
            let tweets ← mapEx (fun tw => do
              let tid ← pyGet tw "id"
              let text ← pyGet tw "text"
              let createdAt ← pyGet tw "created_at"
              let metrics ← pyGetD tw "public_metrics" (.obj [])
              pure (.obj [("id", tid), ("text", text),
                          ("created_at", createdAt), ("metrics", metrics)])) items
            pure (.obj [("tweets", .arr tweets)])), [call])

set_option maxRecDepth 16384

/-! ## Concrete fixtures used by witnesses and counterexamples -/

/-- A configuration with the primary provider active and its key set. -/
def cfgSport : Config :=
  ⟨"sportmonks", some "token123", "https://cricket.sportmonks.com/api/v2.0", none, none⟩

/-- A configuration with the alternate provider active and its key and host
set. -/
def cfgRapid : Config :=
  ⟨"rapidapi", none, "https://cricket.sportmonks.com/api/v2.0",
   some "example-host", some "rapidkey"⟩

/-- A configuration with no credential configured. -/
def cfgNone : Config :=
  ⟨"sportmonks", none, "https://cricket.sportmonks.com/api/v2.0", none, none⟩

/-- A transport that must never be reached. -/
def trNever : Transport := fun _ => .error "no network"

/-- A transport that raises a network-level exception with a fixed message. -/
def trRaise (msg : String) : Transport := fun _ => .error msg

/-- A transport answering every call with one fixed response. -/
def constTr (r : HttpResp) : Transport := fun _ => .ok r

/-- An alternate-provider match record carrying both `matchState` and
`status`. -/
def c1Record : Json := .obj [("matchState", .str "Live"), ("status", .str "Ended")]

/-- A transport whose match-list payload contains exactly `c1Record`. -/
def c1Transport : Transport :=
  fun _ => .ok ⟨200, "", .obj [("matches", .arr [c1Record])]⟩

/-- The card the alternate-provider normalizer produces for `c1Record`. -/
def c1Card : Json :=
  .obj [("id", .null), ("status", .str "LIVE"), ("note", .null),
        ("localteam", .obj [("name", .null), ("code", .null)]),
        ("visitorteam", .obj [("name", .null), ("code", .null)]),
        ("venue", .obj [("name", .null), ("city", .null)]),
        ("starting_at", .null)]

/-- An alternate-provider record with no `venueInfo` and a null `status`. -/
def c4Record : Json := .obj [("status", Json.null)]

/-- The card the alternate-provider normalizer produces for the empty
record, with `type=live` requested. -/
def raEmptyLiveCard : Json :=
  .obj [("id", .null), ("status", .str "LIVE"), ("note", .null),
        ("localteam", .obj [("name", .null), ("code", .null)]),
        ("visitorteam", .obj [("name", .null), ("code", .null)]),
        ("venue", .obj [("name", .null), ("city", .null)]),
        ("starting_at", .null)]

/-- A transport whose payload has an empty `matches` list. -/
def trMatchesEmpty : Transport :=
  fun _ => .ok ⟨200, "", .obj [("matches", .arr [])]⟩

/-- A transport whose payload is an empty JSON object (no `matches` key). -/
def trEmptyObj : Transport := fun _ => .ok ⟨200, "", .obj []⟩

/-- A rankings transport built from one fixed outcome per sub-request URL. -/
def rankTr (format : String) (rt rb rbo ra : Except String HttpResp) :
    UrlTransport :=
  fun url =>
    if url == rankingsTeamsUrl format then rt
    else if url == rankingsCatUrl format "batting" then rb
    else if url == rankingsCatUrl format "bowling" then rbo
    else if url == rankingsCatUrl format "allrounder" then ra
    else .error "unexpected URL"

/-- An exception message longer than 200 characters. -/
def longMsg : String :=
  "Unexpected failure while contacting the upstream provider: connection reset by peer after a partial response was received; the aggregation proxy performs no retries and no backoff, so the request is abandoned immediately."

/-! ## Helper lemmas -/

/-- Truncation to 200 characters yields at most 200 characters. -/
theorem take_200_length_le (msg : String) : (msg.take 200).length ≤ 200 := by
  rw [String.take_eq]
  show (msg.data.take 200).length ≤ 200
  rw [List.length_take]
  exact Nat.min_le_left _ _

/-- A successful `pyUpper` result is a string. -/
theorem pyUpper_ok (j v : Json) (h : pyUpper j = .ok v) : ∃ s, v = .str s := by
  cases j <;> simp [pyUpper] at h
  exact ⟨_, h.symm⟩

/-- The endpoint wrapper is the identity on successes. -/
theorem wrapErr_ok {α : Type} (x : Except PyErr α) (a : α)
    (h : wrapErr x = .ok a) : x = .ok a := by
  cases x with
  | ok b => cases h; rfl
  | error e => cases e <;> simp [wrapErr] at h

/-- Every element of a successful `mapEx` run comes from applying the
normalizer successfully to some input element. -/
theorem mapEx_mem (f : Json → Except PyErr Json) :
    ∀ (xs ys : List Json), mapEx f xs = .ok ys →
      ∀ y ∈ ys, ∃ x ∈ xs, f x = .ok y := by
  intro xs
  induction xs with
  | nil =>
      intro ys h y hy
      simp only [mapEx] at h
      cases h
      simp at hy
  | cons x xs ih =>
      intro ys h y hy
      simp only [mapEx] at h
      split at h
      · cases h
      · split at h
        · cases h
        · cases h
          rename_i w1 z hz w2 zs hzs
          rcases List.mem_cons.mp hy with h1 | h2
          · exact ⟨x, List.mem_cons_self x xs, h1 ▸ hz⟩
          · rcases ih zs hzs y h2 with ⟨w, hw, hfw⟩
            exact ⟨w, List.mem_cons_of_mem x hw, hfw⟩

/-- Any successful SportMonks card carries a string `status`. -/
theorem to_card_status_str (ty : MatchType) (m c : Json)
    (h : to_card ty m = .ok c) : ∃ s, c.lookup "status" = some (.str s) := by
  unfold to_card at h
  simp only [bind, Except.bind, pure, Except.pure] at h
  repeat' split at h
  all_goals cases h
  · obtain ⟨s, rfl⟩ := pyUpper_ok _ _ (by assumption)
    exact ⟨s, by simp [Json.lookup, List.lookup]⟩
  · exact ⟨pyStrUpper ty.toStr, by simp [Json.lookup, List.lookup]⟩

/-- Any successful RapidAPI card carries a string `status`. -/
theorem rapidapi_card_status_str (ty : MatchType) (m c : Json)
    (h : rapidapi_card ty m = .ok c) : ∃ s, c.lookup "status" = some (.str s) := by
  unfold rapidapi_card at h
  simp only [bind, Except.bind, pure, Except.pure] at h
  repeat' split at h
  all_goals cases h
  all_goals
    obtain ⟨s, rfl⟩ := pyUpper_ok _ _ (by assumption)
    exact ⟨s, by simp [Json.lookup, List.lookup]⟩

/-- A successful `/api/matches` response is the type/matches envelope and
every card in it carries a string `status`. -/
theorem get_matches_ok_shape (cfg : Config) (t : Transport) (ty : MatchType)
    (resp : Json) (h : (get_matches cfg t ty).1 = .ok resp) :
    ∃ cards, resp = .obj [("type", .str ty.toStr), ("matches", .arr cards)] ∧
      ∀ c ∈ cards, ∃ s, c.lookup "status" = some (.str s) := by
  simp only [get_matches, get_matches_inner] at h
  split at h
  · replace h := wrapErr_ok _ _ h
    simp only [bind, Except.bind, pure, Except.pure] at h
    repeat' split at h
    all_goals cases h
    refine ⟨_, rfl, fun c hc => ?_⟩
    rcases mapEx_mem _ _ _ (by assumption) c hc with ⟨x, _, hx⟩
    exact to_card_status_str ty x c hx
  · replace h := wrapErr_ok _ _ h
    simp only [bind, Except.bind, pure, Except.pure] at h
    repeat' split at h
    all_goals cases h
    refine ⟨_, rfl, fun c hc => ?_⟩
    rcases mapEx_mem _ _ _ (by assumption) c hc with ⟨x, _, hx⟩
    exact rapidapi_card_status_str ty x c hx

/-- A truthy string `status` field on a SportMonks record is upper-cased. -/
theorem to_card_status_present (ty : MatchType) (fs : List (String × Json))
    (c : Json) (s : String) (h : to_card ty (.obj fs) = .ok c)
    (hlook : Json.lookup (.obj fs) "status" = some (.str s)) (hs : s ≠ "") :
    c.lookup "status" = some (.str (pyStrUpper s)) := by
  simp only [Json.lookup] at hlook
  have h1 : pyGet (Json.obj fs) "status" = .ok (.str s) := by simp [pyGet, hlook]
  have h2 : truthy (Json.str s) = true := by simp [truthy, hs]
  have h3 : pyUpper (Json.str s) = .ok (.str (pyStrUpper s)) := by simp [pyUpper]
  unfold to_card at h
  simp only [bind, Except.bind, pure, Except.pure] at h
  repeat' split at h
  all_goals cases h
  all_goals simp_all [Json.lookup, List.lookup]

/-- An absent `status` field on a SportMonks record falls back to the
requested type, upper-cased. -/
theorem to_card_status_absent (ty : MatchType) (fs : List (String × Json))
    (c : Json) (h : to_card ty (.obj fs) = .ok c)
    (hlook : Json.lookup (.obj fs) "status" = none) :
    c.lookup "status" = some (.str (pyStrUpper ty.toStr)) := by
  simp only [Json.lookup] at hlook
  have h1 : pyGet (Json.obj fs) "status" = .ok .null := by simp [pyGet, hlook]
  have h2 : truthy Json.null = false := by simp [truthy]
  unfold to_card at h
  simp only [bind, Except.bind, pure, Except.pure] at h
  repeat' split at h
  all_goals cases h
  all_goals simp_all [Json.lookup, List.lookup]

/-- A truthy string `matchState` takes precedence on a RapidAPI record. -/
theorem rapidapi_card_matchState_present (ty : MatchType)
    (fs : List (String × Json)) (c : Json) (s : String)
    (h : rapidapi_card ty (.obj fs) = .ok c)
    (hlook : Json.lookup (.obj fs) "matchState" = some (.str s)) (hs : s ≠ "") :
    c.lookup "status" = some (.str (pyStrUpper s)) := by
  simp only [Json.lookup] at hlook
  have h1 : pyGet (Json.obj fs) "matchState" = .ok (.str s) := by simp [pyGet, hlook]
  have h2 : truthy (Json.str s) = true := by simp [truthy, hs]
  have h3 : pyUpper (Json.str s) = .ok (.str (pyStrUpper s)) := by simp [pyUpper]
  unfold rapidapi_card at h
  simp only [bind, Except.bind, pure, Except.pure] at h
  repeat' split at h
  all_goals cases h
  all_goals simp_all [Json.lookup, List.lookup]

/-- Without `matchState`, a string `status` field on a RapidAPI record is
upper-cased. -/
theorem rapidapi_card_status_present (ty : MatchType)
    (fs : List (String × Json)) (c : Json) (s : String)
    (h : rapidapi_card ty (.obj fs) = .ok c)
    (hms : Json.lookup (.obj fs) "matchState" = none)
    (hlook : Json.lookup (.obj fs) "status" = some (.str s)) :
    c.lookup "status" = some (.str (pyStrUpper s)) := by
  simp only [Json.lookup] at hms hlook
  have h1 : pyGet (Json.obj fs) "matchState" = .ok .null := by simp [pyGet, hms]
  have h2 : truthy Json.null = false := by simp [truthy]
  have h3 : pyGetD (Json.obj fs) "status" (.str ty.toStr) = .ok (.str s) := by
    simp [pyGetD, hlook]
  have h4 : pyUpper (Json.str s) = .ok (.str (pyStrUpper s)) := by simp [pyUpper]
  unfold rapidapi_card at h
  simp only [bind, Except.bind, pure, Except.pure] at h
  repeat' split at h
  all_goals cases h
  all_goals simp_all [Json.lookup, List.lookup]

/-- Without `matchState` and `status`, a RapidAPI record falls back to the
requested type, upper-cased. -/
theorem rapidapi_card_status_defaulted (ty : MatchType)
    (fs : List (String × Json)) (c : Json)
    (h : rapidapi_card ty (.obj fs) = .ok c)
    (hms : Json.lookup (.obj fs) "matchState" = none)
    (hst : Json.lookup (.obj fs) "status" = none) :
    c.lookup "status" = some (.str (pyStrUpper ty.toStr)) := by
  simp only [Json.lookup] at hms hst
  have h1 : pyGet (Json.obj fs) "matchState" = .ok .null := by simp [pyGet, hms]
  have h2 : truthy Json.null = false := by simp [truthy]
  have h3 : pyGetD (Json.obj fs) "status" (.str ty.toStr) = .ok (.str ty.toStr) := by
    simp [pyGetD, hst]
  have h4 : pyUpper (Json.str ty.toStr) = .ok (.str (pyStrUpper ty.toStr)) := by
    simp [pyUpper]
  unfold rapidapi_card at h
  simp only [bind, Except.bind, pure, Except.pure] at h
  repeat' split at h
  all_goals cases h
  all_goals simp_all [Json.lookup, List.lookup]

/-- An absent `localteam` yields the all-null team ref. -/
theorem to_card_missing_localteam (ty : MatchType)
    (fs : List (String × Json)) (c : Json)
    (h : to_card ty (.obj fs) = .ok c)
    (hlt : Json.lookup (.obj fs) "localteam" = none) :
    c.lookup "localteam" =
      some (.obj [("id", .null), ("name", .null), ("code", .null)]) := by
  simp only [Json.lookup] at hlt
  have h1 : pyGet (Json.obj fs) "localteam" = .ok .null := by simp [pyGet, hlt]
  have h2 : truthy Json.null = false := by simp [truthy]
  unfold to_card at h
  simp only [bind, Except.bind, pure, Except.pure] at h
  repeat' split at h
  all_goals cases h
  all_goals simp_all [Json.lookup, List.lookup, pyGet]

/-- An absent `visitorteam` yields the all-null team ref. -/
theorem to_card_missing_visitorteam (ty : MatchType)
    (fs : List (String × Json)) (c : Json)
    (h : to_card ty (.obj fs) = .ok c)
    (hvt : Json.lookup (.obj fs) "visitorteam" = none) :
    c.lookup "visitorteam" =
      some (.obj [("id", .null), ("name", .null), ("code", .null)]) := by
  simp only [Json.lookup] at hvt
  have h1 : pyGet (Json.obj fs) "visitorteam" = .ok .null := by simp [pyGet, hvt]
  have h2 : truthy Json.null = false := by simp [truthy]
  unfold to_card at h
  simp only [bind, Except.bind, pure, Except.pure] at h
  repeat' split at h
  all_goals cases h
  all_goals simp_all [Json.lookup, List.lookup, pyGet]

/-- An absent `venue` yields the all-null venue ref. -/
theorem to_card_missing_venue (ty : MatchType)
    (fs : List (String × Json)) (c : Json)
    (h : to_card ty (.obj fs) = .ok c)
    (hv : Json.lookup (.obj fs) "venue" = none) :
    c.lookup "venue" = some (.obj [("name", .null), ("city", .null)]) := by
  simp only [Json.lookup] at hv
  have h1 : pyGet (Json.obj fs) "venue" = .ok .null := by simp [pyGet, hv]
  have h2 : truthy Json.null = false := by simp [truthy]
  unfold to_card at h
  simp only [bind, Except.bind, pure, Except.pure] at h
  repeat' split at h
  all_goals cases h
  all_goals simp_all [Json.lookup, List.lookup, pyGet]

/-- An absent `team1` yields the all-null team ref on a RapidAPI record. -/
theorem rapidapi_card_missing_team1 (ty : MatchType)
    (fs : List (String × Json)) (c : Json)
    (h : rapidapi_card ty (.obj fs) = .ok c)
    (ht : Json.lookup (.obj fs) "team1" = none) :
    c.lookup "localteam" = some (.obj [("name", .null), ("code", .null)]) := by
  simp only [Json.lookup] at ht
  have h1 : pyGet (Json.obj fs) "team1" = .ok .null := by simp [pyGet, ht]
  have h2 : truthy Json.null = false := by simp [truthy]
  unfold rapidapi_card at h
  simp only [bind, Except.bind, pure, Except.pure] at h
  repeat' split at h
  all_goals cases h
  all_goals simp_all [Json.lookup, List.lookup, pyGet]

/-- An absent `team2` yields the all-null team ref on a RapidAPI record. -/
theorem rapidapi_card_missing_team2 (ty : MatchType)
    (fs : List (String × Json)) (c : Json)
    (h : rapidapi_card ty (.obj fs) = .ok c)
    (ht : Json.lookup (.obj fs) "team2" = none) :
    c.lookup "visitorteam" = some (.obj [("name", .null), ("code", .null)]) := by
  simp only [Json.lookup] at ht
  have h1 : pyGet (Json.obj fs) "team2" = .ok .null := by simp [pyGet, ht]
  have h2 : truthy Json.null = false := by simp [truthy]
  unfold rapidapi_card at h
  simp only [bind, Except.bind, pure, Except.pure] at h
  repeat' split at h
  all_goals cases h
  all_goals simp_all [Json.lookup, List.lookup, pyGet]

/-- An absent `venueInfo` yields the all-null venue ref on a RapidAPI
record. -/
theorem rapidapi_card_missing_venueInfo (ty : MatchType)
    (fs : List (String × Json)) (c : Json)
    (h : rapidapi_card ty (.obj fs) = .ok c)
    (hv : Json.lookup (.obj fs) "venueInfo" = none) :
    c.lookup "venue" = some (.obj [("name", .null), ("city", .null)]) := by
  simp only [Json.lookup] at hv
  have h1 : pyGetD (Json.obj fs) "venueInfo" (.obj []) = .ok (.obj []) := by
    simp [pyGetD, hv]
  unfold rapidapi_card at h
  simp only [bind, Except.bind, pure, Except.pure] at h
  repeat' split at h
  all_goals cases h
  all_goals simp_all [Json.lookup, List.lookup, pyGet]

/-- The empty record normalizes without failure (primary provider). -/
theorem to_card_empty_ok (ty : MatchType) :
    to_card ty (.obj []) = .ok (.obj
      [("id", .null), ("status", .str (pyStrUpper ty.toStr)), ("note", .null),
       ("runs", .null), ("league_id", .null),
       ("localteam", .obj [("id", .null), ("name", .null), ("code", .null)]),
       ("visitorteam", .obj [("id", .null), ("name", .null), ("code", .null)]),
       ("venue", .obj [("name", .null), ("city", .null)]),
       ("starting_at", .null)]) := by
  cases ty <;> rfl

/-- The empty record normalizes without failure (alternate provider). -/
theorem rapidapi_card_empty_ok (ty : MatchType) :
    rapidapi_card ty (.obj []) = .ok (.obj
      [("id", .null), ("status", .str (pyStrUpper ty.toStr)), ("note", .null),
       ("localteam", .obj [("name", .null), ("code", .null)]),
       ("visitorteam", .obj [("name", .null), ("code", .null)]),
       ("venue", .obj [("name", .null), ("city", .null)]),
       ("starting_at", .null)]) := by
  cases ty <;> rfl

/-- The news loop's fold is the concatenation of per-feed contributions. -/
theorem news_foldl_join :
    ∀ (l : List (Except String Feed)) (acc : List Json),
      l.foldl (fun a x => a ++ feedContribution x) acc
        = acc ++ (l.map feedContribution).flatten := by
  intro l
  induction l with
  | nil => intro acc; simp
  | cons x xs ih => intro acc; simp [ih, List.append_assoc]

/-- The kept prefix of normalized entries is no longer than its input. -/
theorem collectUntilErr_length_le (f : Json → Except PyErr Json) :
    ∀ l : List Json, (collectUntilErr f l).length ≤ l.length := by
  intro l
  induction l with
  | nil => simp [collectUntilErr]
  | cons e es ih =>
      simp only [collectUntilErr]
      split
      · simp
      · simpa using Nat.succ_le_succ ih

/-! ## Claims -/

/-- Claim C1, counterexample: the claim says a carried `status` field is
returned upper-cased, but for the alternate provider `matchState` takes
precedence: a record carrying `matchState: "Live"` and `status: "Ended"`
yields entry status `"LIVE"`, not `"ENDED"`. -/
theorem matches_status_counterexample :
    Json.lookup c1Record "status" = some (.str "Ended") ∧
    (get_matches cfgRapid c1Transport .live).1 =
      .ok (.obj [("type", .str "live"), ("matches", .arr [c1Card])]) ∧
    Json.lookup c1Card "status" = some (.str "LIVE") ∧
    Json.str "LIVE" ≠ Json.str "ENDED" := by
  refine ⟨rfl, rfl, rfl, ?_⟩
  simp only [ne_eq, Json.str.injEq]
  decide

/-- Claim C1, amended: every entry returned by `/api/matches` (any provider,
any type) has a non-null string `status`.  Its value: for the primary
provider a truthy string `status` is upper-cased and an absent one falls
back to the requested type upper-cased; for the alternate provider a truthy
string `matchState` takes precedence, otherwise a present string `status`
is upper-cased (no truthiness check), otherwise the requested type is
used, upper-cased. -/
theorem matches_status_amended :
    (∀ (cfg : Config) (t : Transport) (ty : MatchType) (resp : Json),
        (get_matches cfg t ty).1 = .ok resp →
        ∃ cards, resp.lookup "matches" = some (.arr cards) ∧
          ∀ c ∈ cards, ∃ s, c.lookup "status" = some (.str s)) ∧
    (∀ (ty : MatchType) (fs : List (String × Json)) (c : Json) (s : String),
        to_card ty (.obj fs) = .ok c →
        Json.lookup (.obj fs) "status" = some (.str s) → s ≠ "" →
        c.lookup "status" = some (.str (pyStrUpper s))) ∧
    (∀ (ty : MatchType) (fs : List (String × Json)) (c : Json),
        to_card ty (.obj fs) = .ok c →
        Json.lookup (.obj fs) "status" = none →
        c.lookup "status" = some (.str (pyStrUpper ty.toStr))) ∧
    (∀ (ty : MatchType) (fs : List (String × Json)) (c : Json) (s : String),
        rapidapi_card ty (.obj fs) = .ok c →
        Json.lookup (.obj fs) "matchState" = some (.str s) → s ≠ "" →
        c.lookup "status" = some (.str (pyStrUpper s))) ∧
    (∀ (ty : MatchType) (fs : List (String × Json)) (c : Json) (s : String),
        rapidapi_card ty (.obj fs) = .ok c →
        Json.lookup (.obj fs) "matchState" = none →
        Json.lookup (.obj fs) "status" = some (.str s) →
        c.lookup "status" = some (.str (pyStrUpper s))) ∧
    (∀ (ty : MatchType) (fs : List (String × Json)) (c : Json),
        rapidapi_card ty (.obj fs) = .ok c →
        Json.lookup (.obj fs) "matchState" = none →
        Json.lookup (.obj fs) "status" = none →
        c.lookup "status" = some (.str (pyStrUpper ty.toStr))) := by
  refine ⟨?_, to_card_status_present, to_card_status_absent,
    rapidapi_card_matchState_present, rapidapi_card_status_present,
    rapidapi_card_status_defaulted⟩
  intro cfg t ty resp h
  rcases get_matches_ok_shape cfg t ty resp h with ⟨cards, rfl, hst⟩
  exact ⟨cards, by simp [Json.lookup, List.lookup], hst⟩

/-- Claim C1, witness: the amended theorem applied to a concrete
alternate-provider run. -/
theorem matches_status_amended_witness :
    ∃ cards,
      Json.lookup (.obj [("type", .str "live"), ("matches", .arr [c1Card])])
        "matches" = some (.arr cards) ∧
      ∀ c ∈ cards, ∃ s, Json.lookup c "status" = some (.str s) :=
  matches_status_amended.1 cfgRapid c1Transport .live
    (.obj [("type", .str "live"), ("matches", .arr [c1Card])]) rfl

/-- Claim C2: a Provider Client fetch with the target credential unset fails
immediately with status 501 and issues no network call. -/
theorem fetch_unconfigured_501 :
    (∀ (cfg : Config) (t : Transport) (path : String)
        (params : List (String × String)), cfg.CRICKET_API_KEY = none →
        sportmonks_get cfg t path params =
          (.error (.http ⟨501, "CRICKET_API_KEY not set for SportMonks"⟩), [])) ∧
    (∀ (cfg : Config) (t : Transport) (path : String)
        (params : Option (List (String × String))) (base : String),
        cfg.RAPIDAPI_KEY = none →
        rapidapi_get cfg t path params base =
          (.error (.http ⟨501, "RAPIDAPI_KEY or RAPIDAPI_HOST not configured"⟩), [])) ∧
    (∀ (cfg : Config) (t : Transport) (path : String)
        (params : Option (List (String × String))) (base : String),
        cfg.RAPIDAPI_HOST = none →
        rapidapi_get cfg t path params base =
          (.error (.http ⟨501, "RAPIDAPI_KEY or RAPIDAPI_HOST not configured"⟩), [])) := by
  refine ⟨?_, ?_, ?_⟩
  · intro cfg t path params h
    simp [sportmonks_get, falsyOpt, h]
  · intro cfg t path params base h
    simp [rapidapi_get, falsyOpt, h]
  · intro cfg t path params base h
    simp [rapidapi_get, falsyOpt, h]

/-- Claim C2, witness: both fetches at an unconfigured concrete config
return 501 with an empty call log. -/
theorem fetch_unconfigured_501_witness :
    sportmonks_get cfgNone trNever "livescores" [] =
      (.error (.http ⟨501, "CRICKET_API_KEY not set for SportMonks"⟩), []) ∧
    rapidapi_get cfgNone trNever "matches/v1/live" none RAPIDAPI_BASE =
      (.error (.http ⟨501, "RAPIDAPI_KEY or RAPIDAPI_HOST not configured"⟩), []) :=
  ⟨fetch_unconfigured_501.1 cfgNone trNever "livescores" [] rfl,
   fetch_unconfigured_501.2.1 cfgNone trNever "matches/v1/live" none RAPIDAPI_BASE rfl⟩

/-- Claim C3, counterexample: a network-level exception in a sub-request
(here: all four time out) makes `/api/rankings` fail wholesale with a
generic 500, contradicting the claim's "never fails wholesale even when all
four sub-requests fail". -/
theorem rankings_wholesale_failure_counterexample :
    get_rankings "odi" (fun _ => .error "timed out") = .error ⟨500, "timed out"⟩ :=
  rfl

/-- Claim C3, amended: whenever all four sub-requests return HTTP responses
(of any status), `/api/rankings` succeeds with exactly the three player
categories batting, bowling, allrounder, each defaulting to the empty list
when its sub-request's status is not 200; but a network-level exception in
any sub-request fails the whole operation with a generic 500. -/
theorem rankings_partial_failure_amended :
    ∀ (format : String) (rt rb rbo ra : HttpResp),
      (format = "test" ∨ format = "odi" ∨ format = "t20") →
      get_rankings format (rankTr format (.ok rt) (.ok rb) (.ok rbo) (.ok ra)) =
        .ok (.obj [("format", .str format),
          ("teams", if rt.status == 200 then rt.body else .arr []),
          ("players", .obj
            [("batting", if rb.status == 200 then rb.body else .arr []),
             ("bowling", if rbo.status == 200 then rbo.body else .arr []),
             ("allrounder", if ra.status == 200 then ra.body else .arr [])])]) := by
  intro format rt rb rbo ra h
  rcases h with rfl | rfl | rfl <;> rfl

/-- Claim C3, witness: all four sub-requests returning non-success still
produce a 200 result with three empty categories. -/
theorem rankings_partial_failure_amended_witness :
    get_rankings "odi" (rankTr "odi"
        (.ok ⟨404, "nf", .null⟩) (.ok ⟨500, "err", .null⟩)
        (.ok ⟨403, "fb", .null⟩) (.ok ⟨502, "bg", .null⟩)) =
      .ok (.obj [("format", .str "odi"), ("teams", .arr []),
        ("players", .obj [("batting", .arr []), ("bowling", .arr []),
                          ("allrounder", .arr [])])]) :=
  rankings_partial_failure_amended "odi" ⟨404, "nf", .null⟩ ⟨500, "err", .null⟩
    ⟨403, "fb", .null⟩ ⟨502, "bg", .null⟩ (Or.inr (Or.inl rfl))

/-- Claim C4, counterexample: an alternate-provider record missing
`venueInfo` can still fail normalization, because its `status` field is
null and `.upper()` raises - the claim's unconditional "normalization does
not fail" is too strong. -/
theorem missing_subobject_counterexample :
    Json.lookup c4Record "venueInfo" = none ∧
    rapidapi_card .live c4Record =
      .error (.exn "AttributeError: object has no attribute upper") :=
  ⟨rfl, rfl⟩

/-- Claim C4, amended: whenever normalization succeeds, an absent nested
sub-object (localteam/visitorteam/venue on the primary provider;
team1/team2/venueInfo on the alternate provider) yields the corresponding
ref with all fields null - in particular venue defaults to name/city null -
and the absence itself never causes failure (the empty record normalizes
fine); normalization may still fail for unrelated reasons such as a
present-but-null status. -/
theorem missing_subobject_nulls_amended :
    (∀ (ty : MatchType) (fs : List (String × Json)) (c : Json),
        to_card ty (.obj fs) = .ok c →
        Json.lookup (.obj fs) "localteam" = none →
        c.lookup "localteam" =
          some (.obj [("id", .null), ("name", .null), ("code", .null)])) ∧
    (∀ (ty : MatchType) (fs : List (String × Json)) (c : Json),
        to_card ty (.obj fs) = .ok c →
        Json.lookup (.obj fs) "visitorteam" = none →
        c.lookup "visitorteam" =
          some (.obj [("id", .null), ("name", .null), ("code", .null)])) ∧
    (∀ (ty : MatchType) (fs : List (String × Json)) (c : Json),
        to_card ty (.obj fs) = .ok c →
        Json.lookup (.obj fs) "venue" = none →
        c.lookup "venue" = some (.obj [("name", .null), ("city", .null)])) ∧
    (∀ (ty : MatchType) (fs : List (String × Json)) (c : Json),
        rapidapi_card ty (.obj fs) = .ok c →
        Json.lookup (.obj fs) "team1" = none →
        c.lookup "localteam" = some (.obj [("name", .null), ("code", .null)])) ∧
    (∀ (ty : MatchType) (fs : List (String × Json)) (c : Json),
        rapidapi_card ty (.obj fs) = .ok c →
        Json.lookup (.obj fs) "team2" = none →
        c.lookup "visitorteam" = some (.obj [("name", .null), ("code", .null)])) ∧
    (∀ (ty : MatchType) (fs : List (String × Json)) (c : Json),
        rapidapi_card ty (.obj fs) = .ok c →
        Json.lookup (.obj fs) "venueInfo" = none →
        c.lookup "venue" = some (.obj [("name", .null), ("city", .null)])) ∧
    (∀ ty : MatchType, to_card ty (.obj []) = .ok (.obj
        [("id", .null), ("status", .str (pyStrUpper ty.toStr)), ("note", .null),
         ("runs", .null), ("league_id", .null),
         ("localteam", .obj [("id", .null), ("name", .null), ("code", .null)]),
         ("visitorteam", .obj [("id", .null), ("name", .null), ("code", .null)]),
         ("venue", .obj [("name", .null), ("city", .null)]),
         ("starting_at", .null)])) ∧
    (∀ ty : MatchType, rapidapi_card ty (.obj []) = .ok (.obj
        [("id", .null), ("status", .str (pyStrUpper ty.toStr)), ("note", .null),
         ("localteam", .obj [("name", .null), ("code", .null)]),
         ("visitorteam", .obj [("name", .null), ("code", .null)]),
         ("venue", .obj [("name", .null), ("city", .null)]),
         ("starting_at", .null)])) :=
  ⟨to_card_missing_localteam, to_card_missing_visitorteam,
   to_card_missing_venue, rapidapi_card_missing_team1,
   rapidapi_card_missing_team2, rapidapi_card_missing_venueInfo,
   to_card_empty_ok, rapidapi_card_empty_ok⟩

/-- Claim C4, witness: the empty alternate-provider record (in particular
missing `venueInfo`) normalizes to a card whose venue is all-null. -/
theorem missing_subobject_nulls_amended_witness :
    Json.lookup raEmptyLiveCard "venue" =
      some (.obj [("name", .null), ("city", .null)]) :=
  missing_subobject_nulls_amended.2.2.2.2.2.1 .live [] raEmptyLiveCard rfl rfl

/-- Claim C5, counterexample: the code's resource paths differ from the
claim's: completed maps to "fixtures/finished" (not "fixtures-finished")
on the primary provider, and live maps to "matches/v1/live" (not
"matches/live") on the alternate provider. -/
theorem matches_resource_path_counterexample :
    sportmonksEndpoint .completed = "fixtures/finished" ∧
    "fixtures/finished" ≠ "fixtures-finished" ∧
    rapidapiPath .live = "matches/v1/live" ∧
    "matches/v1/live" ≠ "matches/live" :=
  ⟨rfl, by decide, rfl, by decide⟩

/-- Claim C5, amended: the exact per-provider resource-path mapping is
live→livescores, upcoming→fixtures, completed→fixtures/finished for the
primary provider and live→matches/v1/live, upcoming→matches/v1/upcoming,
completed→matches/v1/recent for the alternate provider, and the list
operation's one outbound call targets exactly base-plus-that-path. -/
theorem matches_resource_path_amended :
    (sportmonksEndpoint .live = "livescores" ∧
     sportmonksEndpoint .upcoming = "fixtures" ∧
     sportmonksEndpoint .completed = "fixtures/finished") ∧
    (rapidapiPath .live = "matches/v1/live" ∧
     rapidapiPath .upcoming = "matches/v1/upcoming" ∧
     rapidapiPath .completed = "matches/v1/recent") ∧
    (∀ (t : Transport) (ty : MatchType),
      ((get_matches cfgSport t ty).2).map Call.url =
        ["https://cricket.sportmonks.com/api/v2.0/" ++ sportmonksEndpoint ty] ∧
      ((get_matches cfgRapid t ty).2).map Call.url =
        [RAPIDAPI_BASE ++ "/" ++ rapidapiPath ty]) := by
  refine ⟨⟨rfl, rfl, rfl⟩, ⟨rfl, rfl, rfl⟩, ?_⟩
  intro t ty
  constructor
  · cases ty <;>
      · simp [get_matches, get_matches_inner, sportmonks_get, cfgSport, falsyOpt]
        split
        all_goals try rfl
        all_goals split <;> rfl
  · cases ty <;>
      · simp [get_matches, get_matches_inner, rapidapi_get, cfgRapid, falsyOpt]
        split
        all_goals try rfl
        all_goals split <;> rfl

/-- Claim C6: a non-success upstream status makes the fetch fail with the
upstream's own status code and raw body text, and this classified failure
passes through `/api/matches` and `/api/match/id` unchanged. -/
theorem upstream_error_passthrough :
    ∀ (cfg : Config) (r : HttpResp) (path mid : String)
      (params : List (String × String))
      (paramsO : Option (List (String × String))) (base : String)
      (ty : MatchType),
      r.status ≠ 200 →
      ((falsyOpt cfg.CRICKET_API_KEY = false →
          (sportmonks_get cfg (constTr r) path params).1 =
            .error (.http ⟨r.status, r.text⟩)) ∧
       (falsyOpt cfg.RAPIDAPI_KEY = false → falsyOpt cfg.RAPIDAPI_HOST = false →
          (rapidapi_get cfg (constTr r) path paramsO base).1 =
            .error (.http ⟨r.status, r.text⟩)) ∧
       (cfg.API_PROVIDER = "sportmonks" → falsyOpt cfg.CRICKET_API_KEY = false →
          (get_matches cfg (constTr r) ty).1 = .error ⟨r.status, r.text⟩ ∧
          (get_match_details cfg (constTr r) mid).1 = .error ⟨r.status, r.text⟩) ∧
       (cfg.API_PROVIDER ≠ "sportmonks" → falsyOpt cfg.RAPIDAPI_KEY = false →
          falsyOpt cfg.RAPIDAPI_HOST = false →
          (get_matches cfg (constTr r) ty).1 = .error ⟨r.status, r.text⟩ ∧
          (get_match_details cfg (constTr r) mid).1 = .error ⟨r.status, r.text⟩)) := by
  intro cfg r path mid params paramsO base ty hstat
  have hbne : (r.status != 200) = true := by simp [hstat]
  refine ⟨?_, ?_, ?_, ?_⟩
  · intro hk
    simp [sportmonks_get, hk, constTr, hbne]
  · intro hk hh
    simp [rapidapi_get, hk, hh, constTr, hbne]
  · intro hp hk
    constructor
    · simp [get_matches, get_matches_inner, sportmonks_get, hp, hk, constTr,
            hbne, wrapErr, bind, Except.bind]
    · simp [get_match_details, get_match_details_inner, sportmonks_get, hp, hk,
            constTr, hbne, wrapErr, bind, Except.bind]
  · intro hp hk hh
    have hb : (cfg.API_PROVIDER == "sportmonks") = false := by simp [hp]
    constructor
    · simp [get_matches, get_matches_inner, rapidapi_get, hb, hk, hh, constTr,
            hbne, wrapErr, bind, Except.bind]
    · simp [get_match_details, get_match_details_inner, rapidapi_get, hb, hk,
            hh, constTr, hbne, wrapErr, bind, Except.bind]

/-- Claim C6, witness: a 503 upstream response surfaces as 503 with its body
from the fetch, and a 404 upstream response passes through `/api/matches`
under the alternate provider. -/
theorem upstream_error_passthrough_witness :
    (sportmonks_get cfgSport (constTr ⟨503, "bad gateway", .null⟩)
        "livescores" []).1 = .error (.http ⟨503, "bad gateway"⟩) ∧
    (get_matches cfgRapid (constTr ⟨404, "not found", .null⟩) .live).1 =
      .error ⟨404, "not found"⟩ :=
  ⟨(upstream_error_passthrough cfgSport ⟨503, "bad gateway", .null⟩
      "livescores" "m1" [] none RAPIDAPI_BASE .live (by decide)).1 rfl,
   ((upstream_error_passthrough cfgRapid ⟨404, "not found", .null⟩
      "p" "m1" [] none RAPIDAPI_BASE .live (by decide)).2.2.2
      (by decide) rfl rfl).1⟩

/-- Claim C7: `/api/news` takes at most the first 20 entries of each feed,
concatenates contributions in feed order, contributes nothing for a feed
whose parse fails, and returns at most 50 items. -/
theorem news_limits :
    (∀ feeds : List (Except String Feed),
        get_news feeds =
          .obj [("items", .arr (((feeds.map feedContribution).flatten).take 50))]) ∧
    (∀ feeds : List (Except String Feed),
        (((feeds.map feedContribution).flatten).take 50).length ≤ 50) ∧
    (∀ e : String, feedContribution (.error e) = []) ∧
    (∀ f : Feed, (feedContribution (.ok f)).length ≤ 20) := by
  refine ⟨?_, ?_, fun e => rfl, ?_⟩
  · intro feeds
    simp only [get_news, news_foldl_join, List.nil_append]
  · intro feeds
    rw [List.length_take]
    exact Nat.min_le_left _ _
  · intro f
    calc (feedContribution (.ok f)).length
        ≤ (f.entries.take 20).length := collectUntilErr_length_le _ _
      _ ≤ 20 := by rw [List.length_take]; exact Nat.min_le_left _ _

/-- Claim C8: with no bearer token configured, `/api/tweets` returns the
empty list with an explanatory note (a success, not an error) and issues no
network call, for every query and transport. -/
theorem tweets_unset_token_soft :
    ∀ (query : String) (t : Transport),
      get_tweets none query t =
        (.ok (.obj [("tweets", .arr []),
                    ("note", .str "X_BEARER_TOKEN not configured")]), []) :=
  fun _ _ => rfl

/-- Claim C9: an unclassified exception inside `/api/matches` or
`/api/match/id` surfaces as a generic 500 whose detail is the exception
message truncated to at most 200 characters. -/
theorem unexpected_exception_500 :
    ∀ (cfg : Config) (t : Transport) (ty : MatchType) (mid msg : String),
      ((get_matches_inner cfg t ty).1 = .error (.exn msg) →
        (get_matches cfg t ty).1 = .error ⟨500, msg.take 200⟩ ∧
        (msg.take 200).length ≤ 200) ∧
      ((get_match_details_inner cfg t mid).1 = .error (.exn msg) →
        (get_match_details cfg t mid).1 = .error ⟨500, msg.take 200⟩ ∧
        (msg.take 200).length ≤ 200) := by
  intro cfg t ty mid msg
  constructor
  · intro h
    refine ⟨?_, take_200_length_le msg⟩
    show wrapErr (get_matches_inner cfg t ty).1 = .error ⟨500, msg.take 200⟩
    rw [h]
    rfl
  · intro h
    refine ⟨?_, take_200_length_le msg⟩
    show wrapErr (get_match_details_inner cfg t mid).1 = .error ⟨500, msg.take 200⟩
    rw [h]
    rfl

/-- Claim C9, witness: a network-level exception with a 200-plus-character
message yields a 500 whose detail is the 200-character truncation. -/
theorem unexpected_exception_500_witness :
    (get_matches cfgSport (trRaise longMsg) .live).1 =
      .error ⟨500, longMsg.take 200⟩ ∧ (longMsg.take 200).length ≤ 200 :=
  (unexpected_exception_500 cfgSport (trRaise longMsg) .live "m1" longMsg).1 rfl

/-- Claim C10: when the alternate provider's payload is an object with no
`matches` key, the list operation falls back to the payload itself as the
collection; and a payload whose `matches` is the empty list (or which is an
empty object) yields the empty matches envelope. -/
theorem rapidapi_matches_fallback :
    (∀ fs : List (String × Json),
        Json.lookup (.obj fs) "matches" = none →
        pyGetD (.obj fs) "matches" (.obj fs) = .ok (.obj fs)) ∧
    (get_matches cfgRapid trMatchesEmpty .live).1 =
      .ok (.obj [("type", .str "live"), ("matches", .arr [])]) ∧
    (get_matches cfgRapid trEmptyObj .live).1 =
      .ok (.obj [("type", .str "live"), ("matches", .arr [])]) := by
  refine ⟨fun fs h => ?_, rfl, rfl⟩
  simp only [Json.lookup] at h
  simp [pyGetD, h]

/-- Claim C10, witness: the fallback clause applied to the empty object. -/
theorem rapidapi_matches_fallback_witness :
    pyGetD (.obj []) "matches" (.obj []) = .ok (.obj []) :=
  rapidapi_matches_fallback.1 [] rfl
